import Mathlib

/-!
Shallow embedding of `src/geojson_merger.py` (the geometry processing
pipeline: CSV coordinate validation, CSV→GeoJSON conversion, attribute
filtering, GeoJSON structural validation, property-value extraction, and
geometry combination), together with theorems settling the specification
claims about it.

Python values that can appear in a JSON document, a pandas cell, or a
feature's properties are modelled by `JVal`; a pandas missing value
(NaN/None) is `JVal.null`.  Machine floats are modelled by `Rat` (the
claims never depend on float rounding).  Python exceptions are modelled by
`Except String`; in-place mutation of a dataframe is modelled by returning
the post-call dataframe explicitly.
-/

/-- A JSON-like Python value: `None`, booleans, numbers, strings, lists and
dicts (dicts as insertion-ordered association lists, as in Python). -/
inductive JVal where
  | null : JVal
  | bool (b : Bool) : JVal
  | num (q : Rat) : JVal
  | str (s : String) : JVal
  | arr (items : List JVal) : JVal
  | obj (entries : List (String × JVal)) : JVal
deriving Repr

/-- Decimal-free rendering of a rational, standing in for Python's decimal
rendering of a number; the claims never depend on its exact form. -/
def ratStr (q : Rat) : String :=
  if q.den = 1 then toString q.num else toString q.num ++ "/" ++ toString q.den

mutual

/-- Python `repr` on a `JVal` (strings quoted, containers bracketed). -/
def pyRepr : JVal → String
  | .null => "None"
  | .bool true => "True"
  | .bool false => "False"
  | .num q => ratStr q
  | .str s => "\x27" ++ s ++ "\x27"
  | .arr items => "[" ++ pyReprList items ++ "]"
  | .obj es => "\x7b" ++ pyReprObj es ++ "\x7d"

/-- Comma-separated `repr` of the elements of a Python list. -/
def pyReprList : List JVal → String
  | [] => ""
  | [v] => pyRepr v
  | v :: rest => pyRepr v ++ ", " ++ pyReprList rest

/-- Comma-separated `repr` of the entries of a Python dict. -/
def pyReprObj : List (String × JVal) → String
  | [] => ""
  | [(k, v)] => "\x27" ++ k ++ "\x27: " ++ pyRepr v
  | (k, v) :: rest => "\x27" ++ k ++ "\x27: " ++ pyRepr v ++ ", " ++ pyReprObj rest

end

/-- Python `str` on a `JVal`: a string renders as itself, anything else as
its `repr`-style rendering. -/
def pstr : JVal → String
  | .str s => s
  | v => pyRepr v

/-- Python type name of a `JVal`, as it appears in exception messages
(model numbers uniformly as `float`). -/
def pyTypeName : JVal → String
  | .null => "NoneType"
  | .bool _ => "bool"
  | .num _ => "float"
  | .str _ => "str"
  | .arr _ => "list"
  | .obj _ => "dict"

/-- Python truthiness of a `JVal` (`not x` in the source negates this). -/
def jtruthy : JVal → Bool
  | .null => false
  | .bool b => b
  | .num q => q != 0
  | .str s => s ≠ ""
  | .arr items => !items.isEmpty
  | .obj es => !es.isEmpty

/-- A cell is a pandas missing value (`pd.isna`). -/
def isNA : JVal → Bool
  | .null => true
  | _ => false

/-- Value of a run of decimal digits. -/
def digitsToNat (cs : List Char) : Nat :=
  cs.foldl (fun acc c => acc * 10 + (c.toNat - 48)) 0

/-- Parse an unsigned decimal numeral (digits with an optional fractional
part), the grammar `pd.to_numeric` accepts for plain decimal strings. -/
def parseUnsigned (cs : List Char) : Option Rat :=
  let sp := cs.span Char.isDigit
  match sp.2 with
  | [] => if sp.1.isEmpty then none else some (digitsToNat sp.1)
  | '.' :: frac =>
      if frac.all Char.isDigit && !(sp.1.isEmpty && frac.isEmpty) then
        some ((digitsToNat sp.1 : Rat) + (digitsToNat frac : Rat) / ((10 : Rat) ^ frac.length))
      else none
  | _ => none

/-- Strip leading and trailing whitespace from a character list. -/
def trimChars (cs : List Char) : List Char :=
  ((cs.dropWhile Char.isWhitespace).reverse.dropWhile Char.isWhitespace).reverse

/-- Numeric parse of a string as done by `pd.to_numeric` on string cells:
optional surrounding whitespace, optional sign, decimal numeral; `none`
models coercion failure (the cell becomes NaN under `errors='coerce'`). -/
def parseNum (s : String) : Option Rat :=
  match trimChars s.toList with
  | '-' :: rest => (parseUnsigned rest).map (fun q => -q)
  | '+' :: rest => parseUnsigned rest
  | cs => parseUnsigned cs

/-- Numeric coercion of one cell, as `pd.to_numeric(column, errors='coerce')`
acts elementwise: numbers pass through, booleans become 0/1, strings are
parsed, missing values stay missing; `none` is NaN. -/
def toNumeric : JVal → Option Rat
  | .num q => some q
  | .bool b => some (if b then 1 else 0)
  | .str s => parseNum s
  | _ => none

/-- A dataframe row: cells keyed by column name, in column order. -/
abbrev Row := List (String × JVal)

/-- A tabular dataset as pandas holds it: named columns shared by all rows. -/
structure DataFrame where
  cols : List String
  rows : List Row

/-- Read one cell of a row (`row[col]`); pandas rows carry every column, a
structurally absent key reads as the missing value. -/
def getCell (r : Row) (c : String) : JVal :=
  (List.lookup c r).getD .null

/-- Overwrite one cell of a row; models column assignment `df[col] = ...`,
which replaces an existing column in place or appends a new one at the end. -/
def setCell (r : Row) (c : String) (v : JVal) : Row :=
  if (r : List (String × JVal)).any (fun e => e.1 == c) then
    (r : List (String × JVal)).map (fun e => if e.1 = c then (e.1, v) else e)
  else r ++ [(c, v)]

/-- Cell holding an optional number: `some q` is the number, `none` is NaN. -/
def numCell (o : Option Rat) : JVal :=
  o.elim .null .num

/-- In-place coercion of one column, `df[c] = pd.to_numeric(df[c], errors='coerce')`. -/
def coerceColumn (df : DataFrame) (c : String) : DataFrame :=
  ⟨if c ∈ df.cols then df.cols else df.cols ++ [c],
   df.rows.map (fun r => setCell r c (numCell (toNumeric (getCell r c))))⟩

/-- Image of one row under the two successive in-place column coercions
performed by `csv_to_geojson`; named for use in the proofs about it. -/
def coerceRow (latCol lonCol : String) (r : Row) : Row :=
  setCell (setCell r latCol (numCell (toNumeric (getCell r latCol)))) lonCol
    (numCell (toNumeric (getCell (setCell r latCol
      (numCell (toNumeric (getCell r latCol)))) lonCol)))

/-- Mirror of `validate_csv_coordinates(df, lat_col, lon_col)`.  Note that
the pandas elementwise comparison `(-90 <= lats) & (lats <= 90)` is `False`
at a NaN entry, so a cell whose numeric coercion failed makes the `.all()`
range check fail. -/
def validate_csv_coordinates (df : DataFrame) (latCol lonCol : String) :
    Bool × String :=
  if latCol ∉ df.cols ∨ lonCol ∉ df.cols then
    (false, "Selected columns not found in CSV")
  else
    let lats := df.rows.map (fun r => toNumeric (getCell r latCol))
    let lons := df.rows.map (fun r => toNumeric (getCell r lonCol))
    if lats.all Option.isNone || lons.all Option.isNone then
      (false, "Selected columns do not contain valid numeric data")
    else if !(lats.all (fun o => o.elim false (fun q => decide (-90 ≤ q) && decide (q ≤ 90)))) then
      (false, "Latitude values must be between -90 and 90")
    else if !(lons.all (fun o => o.elim false (fun q => decide (-180 ≤ q) && decide (q ≤ 180)))) then
      (false, "Longitude values must be between -180 and 180")
    else
      (true, "Valid coordinates")

/-- A GeoJSON geometry in its nested coordinate-array encoding (a position
is a list of numbers, longitude first). -/
inductive Geometry where
  | point (coords : List Rat) : Geometry
  | lineString (coords : List (List Rat)) : Geometry
  | polygon (rings : List (List (List Rat))) : Geometry
  | multiPolygon (polys : List (List (List (List Rat)))) : Geometry
  | geometryCollection (geoms : List Geometry) : Geometry
deriving Repr

/-- Shapely truthiness of a geometry (`bool(geom)` is "not empty"); `main`
tests `if combined_geometry:` with this. -/
def Geometry.truthy : Geometry → Bool
  | .point cs => !cs.isEmpty
  | .lineString cs => !cs.isEmpty
  | .polygon rs => !rs.isEmpty
  | .multiPolygon ps => !ps.isEmpty
  | .geometryCollection gs => !gs.isEmpty

/-- A GeoJSON feature: `type` tag, geometry, and — at the raw-document
level — an optional `properties` dict (a feature dict may lack the key;
property values are arbitrary `JVal`s, `JVal.null` being an explicit null). -/
structure Feature where
  ftype : String
  geometry : Geometry
  properties : Option (List (String × JVal))
deriving Repr

/-- A FeatureCollection document: `type` tag plus ordered features. -/
structure FC where
  ftype : String
  features : List Feature
deriving Repr

/-- Stringify-or-null of one properties cell in `csv_to_geojson`:
`str(v) if pd.notnull(v) else None`. -/
def pyStrCell (v : JVal) : JVal :=
  if isNA v then .null else .str (pstr v)

/-- Number held by a coerced, non-missing cell (`float(row[col])`); missing
reads as 0 but is only applied to cells that survived `dropna`. -/
def getNum : JVal → Rat
  | .num q => q
  | _ => 0

/-- Feature built from one surviving row of the coerced dataframe:
`Point(float(row[lon_col]), float(row[lat_col]))` — longitude first — and
properties from every other column in column order, stringified-or-null. -/
def rowFeature (cols : List String) (latCol lonCol : String) (r : Row) : Feature :=
  { ftype := "Feature"
  , geometry := .point [getNum (getCell r lonCol), getNum (getCell r latCol)]
  , properties := some ((cols.filter (fun c => c ≠ latCol && c ≠ lonCol)).map
      (fun c => (c, pyStrCell (getCell r c)))) }

/-- Mirror of `csv_to_geojson(df, lat_col, lon_col)`.  The two column
assignments mutate the caller's dataframe, so the result pairs the
post-call dataframe with the conversion outcome (`none` models the
`return None` after `st.error` when no features could be built; the later
`df = df.dropna(...)` rebinding is local and not visible to the caller). -/
def csv_to_geojson (df : DataFrame) (latCol lonCol : String) :
    DataFrame × Option FC :=
  let df1 := coerceColumn (coerceColumn df latCol) lonCol
  let kept := df1.rows.filter
    (fun r => !isNA (getCell r latCol) && !isNA (getCell r lonCol))
  let feats := kept.map (rowFeature df1.cols latCol lonCol)
  (df1, if feats.isEmpty then none else some ⟨"FeatureCollection", feats⟩)

/-- A FilterSpec: property name to accepted (stringified) values, in
insertion order as a Python dict iterates. -/
abbrev Filters := List (String × List String)

/-- One feature's pass through the constraint loop of `filter_geojson`:
empty value-sets are skipped; the first non-empty constraint evaluates
`feature['properties']`, which raises `KeyError` (modelled as `.error`)
when the feature has no properties mapping; a failing constraint breaks
out with `False`. -/
def checkFeature (f : Feature) : Filters → Except String Bool
  | [] => .ok true
  | (prop, values) :: rest =>
      if values.isEmpty then checkFeature f rest
      else
        match f.properties with
        | none => .error "KeyError: \x27properties\x27"
        | some ps =>
            match List.lookup prop ps with
            | some v => if pstr v ∈ values then checkFeature f rest else .ok false
            | none => .ok false

/-- The feature loop of `filter_geojson`: features checked in order, kept
when the check returns `True`; an exception aborts the whole call. -/
def filterFeatures (fs : Filters) : List Feature → Except String (List Feature)
  | [] => .ok []
  | f :: rest => do
      let b ← checkFeature f fs
      let tail ← filterFeatures fs rest
      .ok (if b then f :: tail else tail)

/-- Mirror of `filter_geojson(geojson_data, filters)`: an empty (falsy)
filter dict returns the input object itself; otherwise a fresh
FeatureCollection of the features passing every constraint.  `.error`
models the uncaught exception the function may raise. -/
def filter_geojson (g : FC) (fs : Filters) : Except String FC :=
  if fs.isEmpty then .ok g
  else do
    let kept ← filterFeatures fs g.features
    .ok ⟨"FeatureCollection", kept⟩

/-- Stringified values of `prop` across the features that carry it, in
feature order, as the loop of `get_property_values` collects them. -/
def collectVals (feats : List Feature) (prop : String) : List String :=
  feats.filterMap (fun f => f.properties.bind
    (fun ps => (List.lookup prop ps).map pstr))

/-- Mirror of `get_property_values(geojson_data, property_name)`:
`sorted(list(values_set))` — the distinct collected strings in ascending
order. -/
def get_property_values (g : FC) (prop : String) : List String :=
  List.insertionSort (· ≤ ·) (collectVals g.features prop).dedup

/-- TypeError message of `json.loads` on a non-string argument. -/
def json_loads_arg_error (v : JVal) : String :=
  "the JSON object must be str, bytes or bytearray, not " ++ pyTypeName v

/-- Substring occurrence on character lists (Python `sub in s` for
strings). -/
def startsWithL : List Char → List Char → Bool
  | [], _ => true
  | _ :: _, [] => false
  | a :: as, b :: bs => a == b && startsWithL as bs

/-- Occurrence of `sub` anywhere in `s`, Python's `sub in s` on strings. -/
def isSubL (sub : List Char) : List Char → Bool
  | [] => sub.isEmpty
  | c :: rest => startsWithL sub (c :: rest) || isSubL sub rest

/-- Python membership test `k in d` on a parsed JSON value: key lookup on
a dict, element equality on a list, substring on a string; anything else
raises `TypeError` (modelled as `.error`). -/
def jcontains (d : JVal) (k : String) : Except String Bool :=
  match d with
  | .obj es => .ok (es.any (fun e => e.1 == k))
  | .arr items => .ok (items.any (fun v => match v with
      | .str s => s == k
      | _ => false))
  | .str s => .ok (isSubL k.toList s.toList)
  | v => .error ("argument of type \x27" ++ pyTypeName v ++ "\x27 is not iterable")

/-- Python subscript `d[k]` with a string key on a parsed JSON value; only
a dict supports it, everything else raises (modelled as `.error`). -/
def jindex (d : JVal) (k : String) : Except String JVal :=
  match d with
  | .obj es =>
      match List.lookup k es with
      | some v => .ok v
      | none => .error ("\x27" ++ k ++ "\x27")
  | .arr _ => .error "list indices must be integers or slices, not str"
  | .str _ => .error "string indices must be integers"
  | v => .error ("\x27" ++ pyTypeName v ++ "\x27 object is not subscriptable")

/-- Python `v == "lit"` for a parsed JSON value against a string literal. -/
def jvalEqStr (v : JVal) (s : String) : Bool :=
  match v with
  | .str t => t == s
  | _ => false

/-- Mirror of `validate_geojson(geojson_data)`.  A non-dict input is handed
to `json.loads`: a string is parsed (the parser — Python's external `json`
library — is a parameter), any other value raises `TypeError`; every
exception is caught by the enclosing `except` and rendered as
`"Invalid GeoJSON: " + str(e)`.  The field checks then run in source
order, first failure wins. -/
def validate_geojson (parse : String → Except String JVal) (input : JVal) :
    Bool × String :=
  let parsed : Except String JVal :=
    match input with
    | .obj es => .ok (.obj es)
    | .str s => parse s
    | v => .error (json_loads_arg_error v)
  match parsed with
  | .error e => (false, "Invalid GeoJSON: " ++ e)
  | .ok d =>
    match jcontains d "type" with
    | .error e => (false, "Invalid GeoJSON: " ++ e)
    | .ok hasType =>
      if !hasType then (false, "Invalid GeoJSON structure: missing required fields")
      else
        match jcontains d "features" with
        | .error e => (false, "Invalid GeoJSON: " ++ e)
        | .ok hasFeats =>
          if !hasFeats then (false, "Invalid GeoJSON structure: missing required fields")
          else
            match jindex d "type" with
            | .error e => (false, "Invalid GeoJSON: " ++ e)
            | .ok tv =>
              if !jvalEqStr tv "FeatureCollection" then
                (false, "Invalid GeoJSON: root type must be \x27FeatureCollection\x27")
              else
                match jindex d "features" with
                | .error e => (false, "Invalid GeoJSON: " ++ e)
                | .ok fv =>
                  if !jtruthy fv then (false, "GeoJSON contains no features")
                  else (true, "Valid GeoJSON")

/-- Mirror of `process_geometries(geojson_data)`.  The union of the parsed
geometries is computed by shapely's `unary_union` — an external
computational-geometry dependency, passed here as the `union` parameter
(the source's only use of its result is the `geom_type == 'Polygon'`
wrap-up).  `none` input models a falsy/absent document; all internal
failures are caught and become `None`. -/
def process_geometries (union : List Geometry → Geometry) :
    Option FC → Option Geometry
  | none => none
  | some g =>
      let geoms := g.features.map Feature.geometry
      if geoms.isEmpty then none
      else
        some (match union geoms with
              | .polygon rings => .multiPolygon [rings]
              | c => c)

/-- The exported document `main` builds after combination: a
FeatureCollection holding exactly one feature with the combined geometry
and an empty properties dict. -/
def mk_processed (g : Geometry) : FC :=
  ⟨"FeatureCollection", [⟨"Feature", g, some []⟩]⟩

/-- The combination-and-export step of `main`: run `process_geometries`
and, when it yields a truthy geometry (`if combined_geometry:`), wrap it
in the single-feature export document. -/
def combine_and_export (union : List Geometry → Geometry) (inp : Option FC) :
    Option FC :=
  match process_geometries union inp with
  | some cg => if cg.truthy then some (mk_processed cg) else none
  | none => none

/-- Spec-side reading of one filter constraint, following the claim's
words: a feature passes a property's constraint iff the value-set is
empty, or the feature has that property and the stringified value is a
member of the value-set; a feature missing the property fails it. -/
def passesConstraint (f : Feature) (prop : String) (values : List String) : Bool :=
  values.isEmpty ||
    (match f.properties with
     | some ps =>
         match List.lookup prop ps with
         | some v => decide (pstr v ∈ values)
         | none => false
     | none => false)

/-- Spec-side reading of the whole FilterSpec: logical AND across the
per-property constraints. -/
def passesSpec (f : Feature) (fs : Filters) : Bool :=
  fs.all (fun pv => passesConstraint f pv.1 pv.2)

/-- Trivial stand-in for the external union operation on a one-element
input, where shapely's `unary_union` returns the sole geometry itself. -/
def unionOfSingle (gs : List Geometry) : Geometry :=
  gs.headD (.point [])

/-- Toy stand-in for `json.loads`: recognizes one fixed text as a valid
FeatureCollection document and rejects everything else, the way a real
parser rejects malformed text. -/
def parse1 : String → Except String JVal := fun s =>
  if s = "good" then
    .ok (.obj [("type", .str "FeatureCollection"), ("features", .arr [.obj []])])
  else .error "Expecting value: line 1 column 1 (char 0)"

/-- Example feature with `category = "A"`. -/
def featA : Feature := ⟨"Feature", .point [1, 2], some [("category", .str "A")]⟩

/-- Example feature with `category = "B"`. -/
def featB : Feature := ⟨"Feature", .point [3, 4], some [("category", .str "B")]⟩

/-- Example feature with `category = "C"`. -/
def featC : Feature := ⟨"Feature", .point [5, 6], some [("category", .str "C")]⟩

/-- Example collection of three categorized features. -/
def fcABC : FC := ⟨"FeatureCollection", [featA, featB, featC]⟩

/-- Example polygon rings (one square ring). -/
def ringsW : List (List (List Rat)) := [[[0, 0], [1, 0], [1, 1], [0, 1], [0, 0]]]

/-- Example collection holding exactly one polygon feature. -/
def fcPoly : FC := ⟨"FeatureCollection", [⟨"Feature", .polygon ringsW, some []⟩]⟩

/-- Example dataset on which the C1 claim and the code disagree: one
coercible latitude and one non-numeric latitude. -/
def dfC1 : DataFrame :=
  ⟨["lat", "lon"],
   [[("lat", .num 10), ("lon", .num 20)],
    [("lat", .str "abc"), ("lon", .num 30)]]⟩

/-- Example dataset whose coordinate columns are fully numeric. -/
def dfW1 : DataFrame :=
  ⟨["lat", "lon"], [[("lat", .num 10), ("lon", .num 20)]]⟩

/-- Example dataset with one extra attribute column and one row whose
latitude fails coercion. -/
def dfW3 : DataFrame :=
  ⟨["lat", "lon", "name"],
   [[("lat", .num 10), ("lon", .num 20), ("name", .str "X")],
    [("lat", .null), ("lon", .num 30), ("name", .str "Y")]]⟩

/-- Example dataset holding a numeric string in its latitude column. -/
def dfC5 : DataFrame :=
  ⟨["lat", "lon"], [[("lat", .str "10"), ("lon", .num 20)]]⟩

theorem lookup_cons_key_eq {k a : String} {b : JVal} {es : List (String × JVal)}
    (h : a = k) : ((k, b) :: es).lookup a = some b := by
  subst h
  simp

theorem lookup_cons_key_ne {k a : String} {b : JVal} {es : List (String × JVal)}
    (h : a ≠ k) : ((k, b) :: es).lookup a = es.lookup a := by
  rw [List.lookup_cons]
  have hb : (a == k) = false := by simp [h]
  rw [hb]

theorem lookup_map_update (t : Row) (c : String) (v : JVal) :
    List.lookup c (t.map (fun e => if e.1 = c then (e.1, v) else e)) =
      (List.lookup c t).map (fun _ => v) := by
  induction t with
  | nil => rfl
  | cons e t ih =>
      obtain ⟨k, w⟩ := e
      rw [List.map_cons]
      by_cases hk : k = c
      · subst hk
        rw [if_pos rfl, lookup_cons_key_eq rfl, lookup_cons_key_eq rfl]
        rfl
      · rw [if_neg hk, lookup_cons_key_ne (Ne.symm hk), lookup_cons_key_ne (Ne.symm hk), ih]

theorem lookup_map_update_ne (t : Row) (c c' : String) (v : JVal) (h : c' ≠ c) :
    List.lookup c' (t.map (fun e => if e.1 = c then (e.1, v) else e)) =
      List.lookup c' t := by
  induction t with
  | nil => rfl
  | cons e t ih =>
      obtain ⟨k, w⟩ := e
      rw [List.map_cons]
      by_cases hk : k = c
      · subst hk
        rw [if_pos rfl, lookup_cons_key_ne h, lookup_cons_key_ne h, ih]
      · rw [if_neg hk]
        by_cases hk' : c' = k
        · rw [lookup_cons_key_eq hk', lookup_cons_key_eq hk']
        · rw [lookup_cons_key_ne hk', lookup_cons_key_ne hk', ih]

theorem lookup_append_single (t : Row) (c : String) (v : JVal)
    (h : List.lookup c t = none) :
    List.lookup c (t ++ [(c, v)]) = some v := by
  induction t with
  | nil => simp
  | cons e t ih =>
      obtain ⟨k, w⟩ := e
      by_cases hk : c = k
      · rw [lookup_cons_key_eq hk] at h
        exact absurd h (by simp)
      · rw [lookup_cons_key_ne hk] at h
        rw [List.cons_append, lookup_cons_key_ne hk, ih h]

theorem lookup_append_single_ne (t : Row) (c c' : String) (v : JVal) (h : c' ≠ c) :
    List.lookup c' (t ++ [(c, v)]) = List.lookup c' t := by
  induction t with
  | nil =>
      rw [List.nil_append, lookup_cons_key_ne h]
  | cons e t ih =>
      obtain ⟨k, w⟩ := e
      by_cases hk : c' = k
      · rw [List.cons_append, lookup_cons_key_eq hk, lookup_cons_key_eq hk]
      · rw [List.cons_append, lookup_cons_key_ne hk, lookup_cons_key_ne hk, ih]

theorem any_key_false_lookup (t : Row) (c : String)
    (h : t.any (fun e => e.1 == c) = false) : List.lookup c t = none := by
  induction t with
  | nil => rfl
  | cons e t ih =>
      obtain ⟨k, w⟩ := e
      rw [List.any_cons, Bool.or_eq_false_iff] at h
      have hk : c ≠ k := by
        intro hc
        subst hc
        simp at h
      rw [lookup_cons_key_ne hk, ih h.2]

theorem any_key_true_lookup (t : Row) (c : String)
    (h : t.any (fun e => e.1 == c) = true) : (List.lookup c t).isSome = true := by
  induction t with
  | nil => simp at h
  | cons e t ih =>
      obtain ⟨k, w⟩ := e
      by_cases hk : c = k
      · rw [lookup_cons_key_eq hk]
        rfl
      · rw [lookup_cons_key_ne hk]
        rw [List.any_cons, Bool.or_eq_true] at h
        rcases h with h | h
        · exact absurd (by simpa using h) (Ne.symm hk)
        · exact ih h

theorem getCell_setCell_self (r : Row) (c : String) (v : JVal) :
    getCell (setCell r c v) c = v := by
  unfold getCell setCell
  by_cases h : r.any (fun e => e.1 == c) = true
  · rw [if_pos h, lookup_map_update]
    obtain ⟨w, hw⟩ := Option.isSome_iff_exists.mp (any_key_true_lookup r c h)
    rw [hw]
    rfl
  · have h' : r.any (fun e => e.1 == c) = false := by
      cases hx : r.any (fun e => e.1 == c) with
      | false => rfl
      | true => exact absurd hx h
    rw [if_neg h, lookup_append_single r c v (any_key_false_lookup r c h')]
    rfl

theorem getCell_setCell_ne (r : Row) (c c' : String) (v : JVal) (h : c' ≠ c) :
    getCell (setCell r c v) c' = getCell r c' := by
  unfold getCell setCell
  by_cases hany : r.any (fun e => e.1 == c) = true
  · rw [if_pos hany, lookup_map_update_ne r c c' v h]
  · rw [if_neg hany, lookup_append_single_ne r c c' v h]

theorem isNA_numCell (o : Option Rat) : isNA (numCell o) = !o.isSome := by
  cases o <;> rfl

theorem getNum_numCell (o : Option Rat) : getNum (numCell o) = o.getD 0 := by
  cases o <;> rfl

theorem lookup_some_any (es : List (String × JVal)) (k : String) (v : JVal)
    (h : List.lookup k es = some v) : es.any (fun e => e.1 == k) = true := by
  induction es with
  | nil => simp at h
  | cons e t ih =>
      obtain ⟨k', w⟩ := e
      by_cases hk : k = k'
      · subst hk
        simp
      · rw [lookup_cons_key_ne hk] at h
        simp [ih h]

theorem checkFeature_of_isSome (f : Feature) (fs : Filters)
    (h : (f.properties).isSome = true) :
    checkFeature f fs = .ok (passesSpec f fs) := by
  obtain ⟨ps, hp⟩ := Option.isSome_iff_exists.mp h
  induction fs with
  | nil => rfl
  | cons pv rest ih =>
      obtain ⟨prop, values⟩ := pv
      by_cases hv : values.isEmpty = true
      · have hc : passesConstraint f prop values = true := by
          simp [passesConstraint, hv]
        simp [checkFeature, hv, ih, passesSpec, List.all_cons, hc]
      · have hv' : values.isEmpty = false := by
          cases hx : values.isEmpty with
          | false => rfl
          | true => exact absurd hx hv
        simp only [checkFeature, hv', Bool.false_eq_true, if_false, hp]
        cases hl : List.lookup prop ps with
        | none =>
            have hc : passesConstraint f prop values = false := by
              simp [passesConstraint, hv', hp, hl]
            simp [passesSpec, List.all_cons, hc]
        | some v =>
            by_cases hin : pstr v ∈ values
            · dsimp only
              rw [if_pos hin, ih]
              have hc : passesConstraint f prop values = true := by
                simp [passesConstraint, hp, hl, hin]
              simp [passesSpec, List.all_cons, hc]
            · dsimp only
              rw [if_neg hin]
              have hc : passesConstraint f prop values = false := by
                simp [passesConstraint, hv', hp, hl, hin]
              simp [passesSpec, List.all_cons, hc]

theorem checkFeature_all_empty (f : Feature) (fs : Filters)
    (h : fs.all (fun pv => pv.2.isEmpty) = true) :
    checkFeature f fs = .ok true := by
  induction fs with
  | nil => rfl
  | cons pv rest ih =>
      rw [List.all_cons, Bool.and_eq_true] at h
      obtain ⟨prop, values⟩ := pv
      simp only [checkFeature, h.1, if_true]
      exact ih h.2

theorem filterFeatures_eq (fs : Filters) (p : Feature → Bool) :
    ∀ feats : List Feature, (∀ f ∈ feats, checkFeature f fs = .ok (p f)) →
      filterFeatures fs feats = .ok (feats.filter p)
  | [], _ => rfl
  | f :: rest, h => by
      have hf := h f (List.mem_cons_self f rest)
      have ih := filterFeatures_eq fs p rest (fun g hg => h g (List.mem_cons_of_mem f hg))
      rw [List.filter_cons]
      simp only [filterFeatures, hf, ih, Except.bind, bind]

/-- C2: for every FeatureCollection (every feature carrying a properties
mapping, as the data model requires) and every FilterSpec, `filter_geojson`
returns the input features, in input order, that pass every constraint —
where passing a property's constraint is exactly `passesConstraint`: the
value-set is empty, or the feature has the property and its stringified
value is in the set (a feature missing the property fails) — and an empty
FilterSpec returns the identical collection. -/
theorem filter_geojson_spec (g : FC) (fs : Filters)
    (h : ∀ f ∈ g.features, (f.properties).isSome = true) :
    ∃ out, filter_geojson g fs = Except.ok out ∧
      out.features = g.features.filter (fun f => passesSpec f fs) ∧
      (fs = [] → out = g) := by
  by_cases hfs : fs = []
  · subst hfs
    refine ⟨g, by simp [filter_geojson], ?_, fun _ => rfl⟩
    exact (List.filter_eq_self.mpr (fun f _ => rfl)).symm
  · have hne : fs.isEmpty = false := by
      cases fs with
      | nil => exact absurd rfl hfs
      | cons a l => rfl
    refine ⟨⟨"FeatureCollection", g.features.filter (fun f => passesSpec f fs)⟩,
      ?_, rfl, fun hc => absurd hc hfs⟩
    have hff := filterFeatures_eq fs (fun f => passesSpec f fs) g.features
      (fun f hf => checkFeature_of_isSome f fs (h f hf))
    simp [filter_geojson, hne, hff, Except.bind, bind]

/-- C2 witness: the general theorem applied to a three-feature collection
with a concrete category filter. -/
theorem filter_geojson_spec_witness :
    ∃ out, filter_geojson fcABC [("category", ["A", "B"])] = Except.ok out ∧
      out.features = fcABC.features.filter
        (fun f => passesSpec f [("category", ["A", "B"])]) ∧
      ([("category", ["A", "B"])] = ([] : Filters) → out = fcABC) :=
  filter_geojson_spec fcABC [("category", ["A", "B"])] (by decide)

/-- C4 (amended): `filter_geojson` does return a result whenever every
feature carries a properties mapping, or every value-set in the FilterSpec
is empty; `process_geometries` is total by its catch-all handler.  (The
unamended claim fails: see the counterexample below.) -/
theorem filter_geojson_total (g : FC) (fs : Filters)
    (h : (∀ f ∈ g.features, (f.properties).isSome = true) ∨
         fs.all (fun pv => pv.2.isEmpty) = true) :
    ∃ out, filter_geojson g fs = Except.ok out := by
  by_cases hfs : fs = []
  · exact ⟨g, by simp [filter_geojson, hfs]⟩
  · have hne : fs.isEmpty = false := by
      cases fs with
      | nil => exact absurd rfl hfs
      | cons a l => rfl
    cases h with
    | inl h =>
        refine ⟨⟨"FeatureCollection", g.features.filter (fun f => passesSpec f fs)⟩, ?_⟩
        have hff := filterFeatures_eq fs (fun f => passesSpec f fs) g.features
          (fun f hf => checkFeature_of_isSome f fs (h f hf))
        simp [filter_geojson, hne, hff, Except.bind, bind]
    | inr h =>
        refine ⟨⟨"FeatureCollection", g.features.filter (fun _ => true)⟩, ?_⟩
        have hff := filterFeatures_eq fs (fun _ => true) g.features
          (fun f _ => checkFeature_all_empty f fs h)
        simp [filter_geojson, hne, hff, Except.bind, bind]

/-- C4 witness: the amended theorem applied to the three-feature example
with a non-empty value-set, via the left disjunct. -/
theorem filter_geojson_total_witness :
    ∃ out, filter_geojson fcABC [("category", ["A"])] = Except.ok out :=
  filter_geojson_total fcABC [("category", ["A"])] (Or.inl (by decide))

/-- C4 counterexample: a feature without a `properties` mapping makes
`filter_geojson` raise `KeyError` (modelled as `.error`) as soon as a
non-empty value-set constraint is evaluated, instead of returning a
result. -/
theorem filter_geojson_keyerror_cex :
    filter_geojson ⟨"FeatureCollection", [⟨"Feature", .point [0, 0], none⟩]⟩
      [("category", ["A"])] = Except.error "KeyError: \x27properties\x27" := rfl

/-- C9: `get_property_values` returns a duplicate-free list, sorted in
ascending string order, whose members are exactly the stringified values
of the property across the features whose properties mapping contains it;
features lacking the property (or any properties) contribute nothing. -/
theorem get_property_values_spec (g : FC) (prop : String) :
    List.Sorted (· ≤ ·) (get_property_values g prop) ∧
    (get_property_values g prop).Nodup ∧
    (∀ s : String, s ∈ get_property_values g prop ↔
      ∃ f ∈ g.features, ∃ ps, f.properties = some ps ∧
        ∃ v, List.lookup prop ps = some v ∧ pstr v = s) := by
  refine ⟨List.sorted_insertionSort _ _,
    ((List.perm_insertionSort _ _).nodup_iff).mpr (List.nodup_dedup _),
    fun s => ?_⟩
  unfold get_property_values
  rw [List.mem_insertionSort, List.mem_dedup]
  unfold collectVals
  rw [List.mem_filterMap]
  constructor
  · rintro ⟨f, hf, hF⟩
    refine ⟨f, hf, ?_⟩
    cases hp : f.properties with
    | none => rw [hp] at hF; simp at hF
    | some ps =>
        rw [hp] at hF
        simp only [Option.some_bind] at hF
        rw [Option.map_eq_some'] at hF
        obtain ⟨v, hv, hs⟩ := hF
        exact ⟨ps, rfl, v, hv, hs⟩
  · rintro ⟨f, hf, ps, hp, v, hv, hs⟩
    refine ⟨f, hf, ?_⟩
    rw [hp]
    simp [hv, hs]

/-- C1 counterexample: on `dfC1` both columns exist, each coordinate
column has at least one value that coerces to a number, every successfully
coerced latitude is in [-90, 90] and every coerced longitude is in
[-180, 180] (the claim's hypotheses, stated executably), yet
`validate_csv_coordinates` does not return `(True, "Valid coordinates")`
— the NaN produced by the failed coercion of `"abc"` makes the pandas
range check fail, so the claim is false as stated. -/
theorem validate_csv_coordinates_cex :
    ("lat" ∈ dfC1.cols ∧ "lon" ∈ dfC1.cols) ∧
    dfC1.rows.any (fun r => (toNumeric (getCell r "lat")).isSome) = true ∧
    dfC1.rows.any (fun r => (toNumeric (getCell r "lon")).isSome) = true ∧
    dfC1.rows.all (fun r => (toNumeric (getCell r "lat")).elim true
      (fun q => decide (-90 ≤ q) && decide (q ≤ 90))) = true ∧
    dfC1.rows.all (fun r => (toNumeric (getCell r "lon")).elim true
      (fun q => decide (-180 ≤ q) && decide (q ≤ 180))) = true ∧
    validate_csv_coordinates dfC1 "lat" "lon" =
      (false, "Latitude values must be between -90 and 90") := by
  refine ⟨⟨by decide, by decide⟩, by decide, by decide, by decide, by decide, by decide⟩

/-- C1 (amended): values that fail numeric coercion are not excluded from
the range check — they make it fail — so `validate_csv_coordinates`
returns `(True, "Valid coordinates")` exactly when both columns exist,
the dataset is non-empty, and every value of the latitude column coerces
to a number in [-90, 90] while every value of the longitude column
coerces to a number in [-180, 180]. -/
theorem validate_csv_coordinates_amended (df : DataFrame) (latCol lonCol : String) :
    validate_csv_coordinates df latCol lonCol = (true, "Valid coordinates") ↔
      (latCol ∈ df.cols ∧ lonCol ∈ df.cols ∧ df.rows ≠ [] ∧
       (∀ r ∈ df.rows, ∃ q, toNumeric (getCell r latCol) = some q ∧
         -90 ≤ q ∧ q ≤ 90) ∧
       (∀ r ∈ df.rows, ∃ q, toNumeric (getCell r lonCol) = some q ∧
         -180 ≤ q ∧ q ≤ 180)) := by
  constructor
  · intro h
    simp only [validate_csv_coordinates] at h
    split_ifs at h with hc hnone hlat hlon
    · simp at h
    · simp at h
    · simp at h
    · simp at h
    · push_neg at hc
      obtain ⟨hm1, hm2⟩ := hc
      have hne : df.rows ≠ [] := by
        intro hnil
        exact hnone (by rw [hnil]; rfl)
      have hlat' : (df.rows.map fun r => toNumeric (getCell r latCol)).all
          (fun o => o.elim false fun q =>
            decide (-90 ≤ q) && decide (q ≤ 90)) = true := by
        revert hlat
        cases (df.rows.map fun r => toNumeric (getCell r latCol)).all
            (fun o => o.elim false fun q =>
              decide (-90 ≤ q) && decide (q ≤ 90)) <;> simp
      have hlon' : (df.rows.map fun r => toNumeric (getCell r lonCol)).all
          (fun o => o.elim false fun q =>
            decide (-180 ≤ q) && decide (q ≤ 180)) = true := by
        revert hlon
        cases (df.rows.map fun r => toNumeric (getCell r lonCol)).all
            (fun o => o.elim false fun q =>
              decide (-180 ≤ q) && decide (q ≤ 180)) <;> simp
      refine ⟨hm1, hm2, hne, ?_, ?_⟩
      · intro r hr
        have hall := List.all_eq_true.mp hlat' _
          (List.mem_map_of_mem (fun r => toNumeric (getCell r latCol)) hr)
        dsimp only at hall
        cases ht : toNumeric (getCell r latCol) with
        | none => rw [ht] at hall; simp at hall
        | some q =>
            rw [ht] at hall
            simp at hall
            exact ⟨q, rfl, hall.1, hall.2⟩
      · intro r hr
        have hall := List.all_eq_true.mp hlon' _
          (List.mem_map_of_mem (fun r => toNumeric (getCell r lonCol)) hr)
        dsimp only at hall
        cases ht : toNumeric (getCell r lonCol) with
        | none => rw [ht] at hall; simp at hall
        | some q =>
            rw [ht] at hall
            simp at hall
            exact ⟨q, rfl, hall.1, hall.2⟩
  · rintro ⟨h1, h2, h3, h5, h6⟩
    have hlats_ne : (df.rows.map fun r => toNumeric (getCell r latCol)).all
        Option.isNone = false := by
      cases hr : df.rows with
      | nil => exact absurd hr h3
      | cons r t =>
          obtain ⟨q, hq, _, _⟩ := h5 r (hr ▸ List.mem_cons_self r t)
          simp [hq]
    have hlons_ne : (df.rows.map fun r => toNumeric (getCell r lonCol)).all
        Option.isNone = false := by
      cases hr : df.rows with
      | nil => exact absurd hr h3
      | cons r t =>
          obtain ⟨q, hq, _, _⟩ := h6 r (hr ▸ List.mem_cons_self r t)
          simp [hq]
    have hlat_rng : (df.rows.map fun r => toNumeric (getCell r latCol)).all
        (fun o => o.elim false fun q =>
          decide (-90 ≤ q) && decide (q ≤ 90)) = true := by
      rw [List.all_eq_true]
      intro o ho
      rw [List.mem_map] at ho
      obtain ⟨r, hr, rfl⟩ := ho
      obtain ⟨q, hq, ha, hb⟩ := h5 r hr
      rw [hq]
      simp [ha, hb]
    have hlon_rng : (df.rows.map fun r => toNumeric (getCell r lonCol)).all
        (fun o => o.elim false fun q =>
          decide (-180 ≤ q) && decide (q ≤ 180)) = true := by
      rw [List.all_eq_true]
      intro o ho
      rw [List.mem_map] at ho
      obtain ⟨r, hr, rfl⟩ := ho
      obtain ⟨q, hq, ha, hb⟩ := h6 r hr
      rw [hq]
      simp [ha, hb]
    rw [validate_csv_coordinates, if_neg (by simp [h1, h2])]
    simp [hlats_ne, hlons_ne, hlat_rng, hlon_rng]

/-- C1 witness: the amended biconditional applied, right to left, to a
fully numeric dataset. -/
theorem validate_csv_coordinates_amended_witness :
    validate_csv_coordinates dfW1 "lat" "lon" = (true, "Valid coordinates") :=
  (validate_csv_coordinates_amended dfW1 "lat" "lon").mpr
    ⟨by decide, by decide, by simp [dfW1],
     fun r hr => by
       rw [show r = [("lat", JVal.num 10), ("lon", JVal.num 20)] by
         simpa [dfW1] using hr]
       exact ⟨10, rfl, by norm_num, by norm_num⟩,
     fun r hr => by
       rw [show r = [("lat", JVal.num 10), ("lon", JVal.num 20)] by
         simpa [dfW1] using hr]
       exact ⟨20, rfl, by norm_num, by norm_num⟩⟩

/-- C8 counterexample: a direct array input is handed to `json.loads`,
whose `TypeError` is caught and rendered as an `"Invalid GeoJSON: ..."`
message — not the claimed `"Invalid GeoJSON structure: missing required
fields"` message. -/
theorem validate_geojson_array_cex :
    validate_geojson parse1 (.arr []) =
      (false, "Invalid GeoJSON: the JSON object must be str, bytes or bytearray, not list") ∧
    "Invalid GeoJSON: the JSON object must be str, bytes or bytearray, not list" ≠
      "Invalid GeoJSON structure: missing required fields" :=
  ⟨rfl, by decide⟩

/-- C8 (amended): an input that is neither a mapping nor a string is
passed to `json.loads`, which raises `TypeError`; the handler converts it
into `valid = False` with the message `"Invalid GeoJSON: the JSON object
must be str, bytes or bytearray, not <type>"` — not the
missing-required-fields message; a string input is JSON-parsed instead. -/
theorem validate_geojson_non_mapping (parse : String → Except String JVal)
    (v : JVal) (h1 : ∀ es, v ≠ .obj es) (h2 : ∀ s, v ≠ .str s) :
    validate_geojson parse v =
      (false, "Invalid GeoJSON: " ++ json_loads_arg_error v) := by
  cases v with
  | null => rfl
  | bool b => rfl
  | num q => rfl
  | arr items => rfl
  | str s => exact absurd rfl (h2 s)
  | obj es => exact absurd rfl (h1 es)

/-- C8 witness: the amended theorem applied to a numeric scalar input. -/
theorem validate_geojson_non_mapping_witness :
    validate_geojson parse1 (.num 1) =
      (false, "Invalid GeoJSON: " ++ json_loads_arg_error (.num 1)) :=
  validate_geojson_non_mapping parse1 (.num 1)
    (fun _ h => JVal.noConfusion h) (fun _ h => JVal.noConfusion h)

/-- C10: `validate_geojson` accepts serialized JSON text: a string whose
parse yields a mapping with a `"FeatureCollection"` type and a non-empty
features array validates as `(True, "Valid GeoJSON")`, and a string the
parser rejects yields `valid = False` with a message (the caught parse
exception) rather than raising. -/
theorem validate_geojson_string_input (parse : String → Except String JVal)
    (s : String) :
    (∀ es l, parse s = .ok (.obj es) →
        List.lookup "type" es = some (.str "FeatureCollection") →
        List.lookup "features" es = some (.arr l) → l ≠ [] →
        validate_geojson parse (.str s) = (true, "Valid GeoJSON")) ∧
    (∀ e, parse s = .error e →
        validate_geojson parse (.str s) = (false, "Invalid GeoJSON: " ++ e)) := by
  constructor
  · intro es l hp ht hf hl
    have hct : jcontains (.obj es) "type" = .ok true := by
      simp [jcontains, lookup_some_any es "type" _ ht]
    have hcf : jcontains (.obj es) "features" = .ok true := by
      simp [jcontains, lookup_some_any es "features" _ hf]
    have hle : l.isEmpty = false := by
      cases l with
      | nil => exact absurd rfl hl
      | cons a t => rfl
    simp [validate_geojson, hp, hct, hcf, jindex, ht, hf, jvalEqStr, jtruthy, hle]
  · intro e hp
    simp [validate_geojson, hp]

/-- C10 witness: the theorem applied to the toy parser at an accepted and
at a rejected text. -/
theorem validate_geojson_string_input_witness :
    validate_geojson parse1 (.str "good") = (true, "Valid GeoJSON") ∧
    validate_geojson parse1 (.str "bad") =
      (false, "Invalid GeoJSON: Expecting value: line 1 column 1 (char 0)") :=
  ⟨(validate_geojson_string_input parse1 "good").1
      [("type", .str "FeatureCollection"), ("features", .arr [.obj []])]
      [.obj []] rfl rfl rfl (by simp),
   (validate_geojson_string_input parse1 "bad").2
      "Expecting value: line 1 column 1 (char 0)" rfl⟩

/-- C6: whenever the union of a non-empty collection's geometries is a
single simple polygon — in particular for a collection holding exactly one
polygon feature — `process_geometries` returns a MultiPolygon container of
size exactly one wrapping that polygon's rings unchanged. -/
theorem process_geometries_single_polygon (union : List Geometry → Geometry)
    (fc : FC) (rings : List (List (List Rat)))
    (hne : fc.features ≠ [])
    (hu : union (fc.features.map Feature.geometry) = Geometry.polygon rings) :
    process_geometries union (some fc) = some (Geometry.multiPolygon [rings]) := by
  have hme : (fc.features.map Feature.geometry).isEmpty = false := by
    cases hf : fc.features with
    | nil => exact absurd hf hne
    | cons a l => simp [hf]
  simp [process_geometries, hme, hu]

/-- C6 witness: the theorem applied to the one-polygon collection with the
singleton union (shapely's union of one geometry is that geometry). -/
theorem process_geometries_single_polygon_witness :
    process_geometries unionOfSingle (some fcPoly) =
      some (Geometry.multiPolygon [ringsW]) :=
  process_geometries_single_polygon unionOfSingle fcPoly ringsW
    (by simp [fcPoly]) rfl

/-- C7: whenever geometry combination succeeds (a truthy combined
geometry), the exported document is a FeatureCollection containing exactly
one Feature whose geometry is the combined geometry and whose properties
mapping is empty. -/
theorem combine_and_export_spec (union : List Geometry → Geometry)
    (inp : Option FC) (cg : Geometry)
    (h1 : process_geometries union inp = some cg)
    (h2 : cg.truthy = true) :
    combine_and_export union inp =
      some ⟨"FeatureCollection", [⟨"Feature", cg, some []⟩]⟩ := by
  unfold combine_and_export
  rw [h1]
  simp [h2, mk_processed]

/-- C7 witness: the theorem applied to the one-polygon collection, whose
combined geometry is the wrapped MultiPolygon. -/
theorem combine_and_export_spec_witness :
    combine_and_export unionOfSingle (some fcPoly) =
      some ⟨"FeatureCollection",
        [⟨"Feature", Geometry.multiPolygon [ringsW], some []⟩]⟩ :=
  combine_and_export_spec unionOfSingle (some fcPoly)
    (Geometry.multiPolygon [ringsW]) rfl rfl

theorem getCell_coerceRow_lat (r : Row) (latCol lonCol : String)
    (h : latCol ≠ lonCol) :
    getCell (coerceRow latCol lonCol r) latCol =
      numCell (toNumeric (getCell r latCol)) := by
  unfold coerceRow
  rw [getCell_setCell_ne _ _ _ _ h, getCell_setCell_self]

theorem getCell_coerceRow_lon (r : Row) (latCol lonCol : String)
    (h : latCol ≠ lonCol) :
    getCell (coerceRow latCol lonCol r) lonCol =
      numCell (toNumeric (getCell r lonCol)) := by
  unfold coerceRow
  rw [getCell_setCell_self, getCell_setCell_ne _ _ _ _ (Ne.symm h)]

theorem getCell_coerceRow_other (r : Row) (latCol lonCol c : String)
    (hc1 : c ≠ latCol) (hc2 : c ≠ lonCol) :
    getCell (coerceRow latCol lonCol r) c = getCell r c := by
  unfold coerceRow
  rw [getCell_setCell_ne _ _ _ _ hc2, getCell_setCell_ne _ _ _ _ hc1]

theorem coerce_cols (df : DataFrame) (latCol lonCol : String)
    (h1 : latCol ∈ df.cols) (h2 : lonCol ∈ df.cols) :
    (coerceColumn (coerceColumn df latCol) lonCol).cols = df.cols := by
  simp [coerceColumn, h1, h2]

theorem coerce_rows (df : DataFrame) (latCol lonCol : String) :
    (coerceColumn (coerceColumn df latCol) lonCol).rows =
      df.rows.map (coerceRow latCol lonCol) := by
  simp only [coerceColumn]
  rw [List.map_map]
  rfl

/-- C3: for every dataset containing both (distinct) coordinate columns,
`csv_to_geojson` drops exactly the rows where either coordinate fails
numeric coercion; each surviving row, in surviving input order, becomes a
Feature whose geometry is a Point with coordinates (longitude, latitude) —
longitude first — read from that row, and whose properties map every
non-coordinate column to its stringified value with missing values kept as
an explicit null; and when zero rows survive it signals failure by
returning no FeatureCollection. -/
theorem csv_to_geojson_spec (df : DataFrame) (latCol lonCol : String)
    (h1 : latCol ∈ df.cols) (h2 : lonCol ∈ df.cols) (h3 : latCol ≠ lonCol) :
    (csv_to_geojson df latCol lonCol).2 =
      (if (df.rows.filter (fun r => (toNumeric (getCell r latCol)).isSome &&
            (toNumeric (getCell r lonCol)).isSome)).isEmpty then none
       else some ⟨"FeatureCollection",
         (df.rows.filter (fun r => (toNumeric (getCell r latCol)).isSome &&
            (toNumeric (getCell r lonCol)).isSome)).map (fun r =>
           { ftype := "Feature"
           , geometry := .point [(toNumeric (getCell r lonCol)).getD 0,
                                 (toNumeric (getCell r latCol)).getD 0]
           , properties := some ((df.cols.filter
               (fun c => c ≠ latCol && c ≠ lonCol)).map
               (fun c => (c, if isNA (getCell r c) then JVal.null
                             else JVal.str (pstr (getCell r c)))))})⟩) := by
  have hpred : ∀ r : Row,
      (!isNA (getCell (coerceRow latCol lonCol r) latCol) &&
       !isNA (getCell (coerceRow latCol lonCol r) lonCol)) =
      ((toNumeric (getCell r latCol)).isSome &&
       (toNumeric (getCell r lonCol)).isSome) := fun r => by
    rw [getCell_coerceRow_lat r latCol lonCol h3,
        getCell_coerceRow_lon r latCol lonCol h3,
        isNA_numCell, isNA_numCell, Bool.not_not, Bool.not_not]
  have hkept :
      (df.rows.map (coerceRow latCol lonCol)).filter
        (fun r => !isNA (getCell r latCol) && !isNA (getCell r lonCol)) =
      (df.rows.filter (fun r => (toNumeric (getCell r latCol)).isSome &&
          (toNumeric (getCell r lonCol)).isSome)).map (coerceRow latCol lonCol) := by
    rw [List.filter_map]
    exact congrArg _ (List.filter_congr (fun r _ => by
      simpa [Function.comp] using hpred r))
  have hfeat : ∀ r ∈ df.rows.filter (fun r =>
        (toNumeric (getCell r latCol)).isSome &&
        (toNumeric (getCell r lonCol)).isSome),
      rowFeature df.cols latCol lonCol (coerceRow latCol lonCol r) =
      { ftype := "Feature"
      , geometry := .point [(toNumeric (getCell r lonCol)).getD 0,
                            (toNumeric (getCell r latCol)).getD 0]
      , properties := some ((df.cols.filter
          (fun c => c ≠ latCol && c ≠ lonCol)).map
          (fun c => (c, if isNA (getCell r c) then JVal.null
                        else JVal.str (pstr (getCell r c))))) } := by
    intro r _
    unfold rowFeature
    rw [getCell_coerceRow_lat r latCol lonCol h3,
        getCell_coerceRow_lon r latCol lonCol h3,
        getNum_numCell, getNum_numCell]
    refine congrArg _ (congrArg some (List.map_congr_left ?_))
    intro c hc
    rw [List.mem_filter, Bool.and_eq_true] at hc
    have hc1 : c ≠ latCol := by simpa using hc.2.1
    have hc2 : c ≠ lonCol := by simpa using hc.2.2
    rw [getCell_coerceRow_other r latCol lonCol c hc1 hc2]
    rfl
  unfold csv_to_geojson
  dsimp only
  rw [coerce_cols df latCol lonCol h1 h2, coerce_rows df latCol lonCol, hkept,
      List.map_map, Function.comp_def, List.map_congr_left (fun r hr => hfeat r hr)]
  cases hs : (df.rows.filter (fun r => (toNumeric (getCell r latCol)).isSome &&
      (toNumeric (getCell r lonCol)).isSome)) with
  | nil => rfl
  | cons a l => rfl

/-- C3 witness: the theorem applied to a dataset with one attribute column
and one row whose latitude is missing. -/
theorem csv_to_geojson_spec_witness :
    (csv_to_geojson dfW3 "lat" "lon").2 =
      (if (dfW3.rows.filter (fun r => (toNumeric (getCell r "lat")).isSome &&
            (toNumeric (getCell r "lon")).isSome)).isEmpty then none
       else some ⟨"FeatureCollection",
         (dfW3.rows.filter (fun r => (toNumeric (getCell r "lat")).isSome &&
            (toNumeric (getCell r "lon")).isSome)).map (fun r =>
           { ftype := "Feature"
           , geometry := .point [(toNumeric (getCell r "lon")).getD 0,
                                 (toNumeric (getCell r "lat")).getD 0]
           , properties := some ((dfW3.cols.filter
               (fun c => c ≠ "lat" && c ≠ "lon")).map
               (fun c => (c, if isNA (getCell r c) then JVal.null
                             else JVal.str (pstr (getCell r c)))))})⟩) :=
  csv_to_geojson_spec dfW3 "lat" "lon" (by decide) (by decide) (by decide)

/-- C5 (amended): `csv_to_geojson` mutates its input in place — after the
call, the dataset still has the same columns and the same number of rows,
and every non-coordinate cell is unchanged, but each coordinate cell has
been overwritten by its coerced numeric value (a missing value when
coercion failed).  `filter_geojson` builds its output from the input
features without modifying them (see the C2 theorem). -/
theorem csv_to_geojson_mutation (df : DataFrame) (latCol lonCol : String)
    (h1 : latCol ∈ df.cols) (h2 : lonCol ∈ df.cols) (h3 : latCol ≠ lonCol) :
    (csv_to_geojson df latCol lonCol).1.cols = df.cols ∧
    (csv_to_geojson df latCol lonCol).1.rows.length = df.rows.length ∧
    ∀ i r, df.rows.get? i = some r →
      ∃ r', (csv_to_geojson df latCol lonCol).1.rows.get? i = some r' ∧
        getCell r' latCol = numCell (toNumeric (getCell r latCol)) ∧
        getCell r' lonCol = numCell (toNumeric (getCell r lonCol)) ∧
        ∀ c, c ≠ latCol → c ≠ lonCol → getCell r' c = getCell r c := by
  have hfst : (csv_to_geojson df latCol lonCol).1 =
      coerceColumn (coerceColumn df latCol) lonCol := rfl
  refine ⟨by rw [hfst]; exact coerce_cols df latCol lonCol h1 h2, ?_, ?_⟩
  · rw [hfst, coerce_rows df latCol lonCol, List.length_map]
  · intro i r hr
    refine ⟨coerceRow latCol lonCol r, ?_,
      getCell_coerceRow_lat r latCol lonCol h3,
      getCell_coerceRow_lon r latCol lonCol h3,
      fun c hc1 hc2 => getCell_coerceRow_other r latCol lonCol c hc1 hc2⟩
    rw [hfst, coerce_rows df latCol lonCol, List.get?_map, hr]
    rfl

/-- C5 witness: the amended theorem applied to the numeric-string
dataset. -/
theorem csv_to_geojson_mutation_witness :
    (csv_to_geojson dfC5 "lat" "lon").1.cols = dfC5.cols ∧
    (csv_to_geojson dfC5 "lat" "lon").1.rows.length = dfC5.rows.length ∧
    ∀ i r, dfC5.rows.get? i = some r →
      ∃ r', (csv_to_geojson dfC5 "lat" "lon").1.rows.get? i = some r' ∧
        getCell r' "lat" = numCell (toNumeric (getCell r "lat")) ∧
        getCell r' "lon" = numCell (toNumeric (getCell r "lon")) ∧
        ∀ c, c ≠ "lat" → c ≠ "lon" → getCell r' c = getCell r c :=
  csv_to_geojson_mutation dfC5 "lat" "lon" (by decide) (by decide) (by decide)

/-- C5 counterexample: `csv_to_geojson` does mutate its input — the
latitude cell of `dfC5` was the string `"10"` before the call and is the
number `10` in the caller-visible dataframe afterwards, so the input
dataset does not hold the same values it held before the call. -/
theorem csv_to_geojson_mutates_cex :
    getCell ((csv_to_geojson dfC5 "lat" "lon").1.rows.headD []) "lat" =
      JVal.num 10 ∧
    getCell (dfC5.rows.headD []) "lat" = JVal.str "10" ∧
    (csv_to_geojson dfC5 "lat" "lon").1 ≠ dfC5 := by
  refine ⟨rfl, rfl, fun h => ?_⟩
  have h10 : JVal.num 10 = JVal.str "10" := by
    calc JVal.num 10
        = getCell ((csv_to_geojson dfC5 "lat" "lon").1.rows.headD []) "lat" := rfl
      _ = getCell (dfC5.rows.headD []) "lat" := by rw [h]
      _ = JVal.str "10" := rfl
  exact JVal.noConfusion h10
